import Mathlib

/-!
Shallow embedding of `src/sys/socket/sockopt.rs`: the socket-option
marshaling layer of the nix crate.  The four read/write encoding-strategy
pairs (`GetBool`/`SetBool`, `GetU8`/`SetU8`, `GetUsize`/`SetUsize`,
`GetStruct`/`SetStruct`), the generic accessor entry points generated by
the `getsockopt_impl!` / `setsockopt_impl!` macros, and the declarative
option registry produced by the `sockopt_impl!` macro expansions are
translated into executable Lean definitions; theorems about the spec's
claims follow the definitions.

Machine-integer conventions of the embedding: `socklen_t` lengths are
`Nat`; a C `int` value is an `Int` (casts carry explicit `% 2 ^ 32` /
`% 2 ^ 64` arithmetic); a `uint8_t` value is a `Nat`.  The reference
target is an LP64 platform: `size_of::<c_int>() = 4`,
`size_of::<uint8_t>() = 1`, `usize` is 64 bits wide.
-/

/-- `mem::size_of::<c_int>()` on every supported target: 4 bytes. -/
def cIntSize : Nat := 4

/-- `mem::size_of::<uint8_t>()`: 1 byte. -/
def uint8_tSize : Nat := 1

/-- Largest value an `isize` holds on the LP64 reference target. -/
def isizeMax : Nat := 2 ^ 63 - 1

/-- The Rust cast `v as c_int` for a `usize` operand `v` on the LP64
target: truncate to the low 32 bits and reinterpret in two's complement. -/
def usizeToCInt (v : Nat) : Int :=
  let r : Nat := v % 2 ^ 32
  if r < 2 ^ 31 then (r : Int) else (r : Int) - 2 ^ 32

/-- The Rust cast `i as usize` for a `c_int` operand `i` on the LP64
target: sign-extend to 64 bits, i.e. reduce modulo `2 ^ 64` into `Nat`. -/
def cIntToUsize (i : Int) : Nat :=
  (i % 2 ^ 64).toNat

/-- Outcome of one call of an accessor: `ok` and `err` are the two arms of
the Rust `Result`, while `fatal` records that a failed `assert!` aborted
the call (a panic, not a value the caller can receive). -/
inductive CallResult (ε α : Type) where
  | ok : α → CallResult ε α
  | err : ε → CallResult ε α
  | fatal : CallResult ε α
deriving DecidableEq

/-- Modelled from the spec: `Errno::result` lives in the crate's `errno`
module, outside this file.  Per the spec's syscall-primitive interface,
status 0 means success and any non-zero status is a failure whose
platform error code (read from the side channel) is mapped into the
structured error taxonomy. -/
def Errno.result (status : Int) (errno : Nat) : Except Nat Int :=
  if status = 0 then Except.ok status else Except.error errno

/-- What one `libc::getsockopt` call leaves behind: the returned status,
the errno side channel, and the scratch state (value and length fields,
written through `ffi_ptr` / `ffi_len`) after the kernel mutated it. -/
structure GetOutcome (σ : Type) where
  status : Int
  errno : Nat
  after : σ
deriving DecidableEq

/-- What one `libc::setsockopt` call returns: status plus errno side
channel (the kernel only reads the caller's buffer). -/
structure SetOutcome where
  status : Int
  errno : Nat
deriving DecidableEq

/-- The body generated by `getsockopt_impl!`: build a blank scratch
instance, perform the single syscall (modelled as a function `sys` from
the scratch the kernel sees to its outcome), early-return the mapped
error on failure status (`try!`), otherwise decode with `unwrap` —
`none` there models the failed `assert!`, i.e. the fatal panic. -/
def getsockopt_impl {σ α : Type} (uw : σ → Option α) (sys : σ → GetOutcome σ)
    (bl : σ) : CallResult Nat α :=
  let out := sys bl
  match Errno.result out.status out.errno with
  | Except.error e => CallResult.err e
  | Except.ok _ =>
    match uw out.after with
    | some v => CallResult.ok v
    | none => CallResult.fatal

/-- The body generated by `setsockopt_impl!`: wrap the borrowed value
with `Set::new`, perform the single syscall with the wrapper's buffer
and its reported `ffi_len`, and map the status through `Errno::result`,
dropping the success value. -/
def setsockopt_impl {α σ : Type} (nw : α → σ) (fl : σ → Nat)
    (sys : σ → Nat → SetOutcome) (v : α) : CallResult Nat Unit :=
  let setter := nw v
  let out := sys setter (fl setter)
  match Errno.result out.status out.errno with
  | Except.error e => CallResult.err e
  | Except.ok _ => CallResult.ok ()

/-- Compile-time data Rust attaches to a value type `T` that the generic
`GetStruct<T>` / `SetStruct<T>` encodings consume: its byte size
(`mem::size_of::<T>()`) and its all-zero-bytes inhabitant
(`mem::zeroed::<T>()`). -/
class CRepr (T : Type) where
  size : Nat
  zeroed : T

/-- `mem::size_of::<T>()`. -/
def csize (T : Type) [i : CRepr T] : Nat := @CRepr.size T i

/-- `mem::zeroed::<T>()`. -/
def czeroed (T : Type) [i : CRepr T] : T := @CRepr.zeroed T i

/-- Read scratch of the opaque-struct strategy: a `socklen_t` length
field and the literal value type. -/
structure GetStruct (T : Type) where
  len : Nat
  val : T
deriving DecidableEq

/-- `<GetStruct<T> as Get<T>>::blank`: length preset to
`mem::size_of::<T>()`, value zero-initialized. -/
def GetStruct.blank (T : Type) [CRepr T] : GetStruct T :=
  ⟨csize T, czeroed T⟩

/-- `<GetStruct<T> as Get<T>>::unwrap`: assert the post-call length
equals `mem::size_of::<T>()` (a `none` result models the panic), then
move the payload out unchanged. -/
def GetStruct.unwrap {T : Type} [CRepr T] (s : GetStruct T) : Option T :=
  if s.len = csize T then some s.val else none

/-- Write wrapper of the opaque-struct strategy: borrows the caller's
value; `ffi_ptr` is the borrowed value's own address, so the buffer the
kernel reads is the value itself. -/
structure SetStruct (T : Type) where
  ptr : T
deriving DecidableEq

/-- `<SetStruct<T> as Set<T>>::new`. -/
def SetStruct.new {T : Type} (v : T) : SetStruct T := ⟨v⟩

/-- `<SetStruct<T> as Set<T>>::ffi_len`: `mem::size_of::<T>()`. -/
def SetStruct.ffi_len {T : Type} [CRepr T] (_ : SetStruct T) : Nat := csize T

/-- Read scratch of the boolean strategy: a `socklen_t` length and a
`c_int` value. -/
structure GetBool where
  len : Nat
  val : Int
deriving DecidableEq

/-- `<GetBool as Get<bool>>::blank`: length preset to
`mem::size_of::<c_int>()`, value zeroed. -/
def GetBool.blank : GetBool := ⟨cIntSize, 0⟩

/-- `<GetBool as Get<bool>>::unwrap`: assert the post-call length equals
`mem::size_of::<c_int>()`, then decode `self.val != 0`. -/
def GetBool.unwrap (s : GetBool) : Option Bool :=
  if s.len = cIntSize then some (decide (s.val ≠ 0)) else none

/-- Write wrapper of the boolean strategy: an owned `c_int` field. -/
structure SetBool where
  val : Int
deriving DecidableEq

/-- `<SetBool as Set<bool>>::new`: `true` → 1, `false` → 0. -/
def SetBool.new (b : Bool) : SetBool := ⟨if b then 1 else 0⟩

/-- `<SetBool as Set<bool>>::ffi_len`: `mem::size_of::<c_int>()`. -/
def SetBool.ffi_len (_ : SetBool) : Nat := cIntSize

/-- Read scratch of the byte strategy: a `socklen_t` length and a
`uint8_t` value. -/
structure GetU8 where
  len : Nat
  val : Nat
deriving DecidableEq

/-- `<GetU8 as Get<u8>>::blank`: length preset to
`mem::size_of::<uint8_t>()`, value zeroed. -/
def GetU8.blank : GetU8 := ⟨uint8_tSize, 0⟩

/-- `<GetU8 as Get<u8>>::unwrap`: assert the post-call length equals
`mem::size_of::<uint8_t>()`, then return the byte (`self.val as u8` is
the identity on a `uint8_t`). -/
def GetU8.unwrap (s : GetU8) : Option Nat :=
  if s.len = uint8_tSize then some s.val else none

/-- Write wrapper of the byte strategy: one owned `uint8_t` field. -/
structure SetU8 where
  val : Nat
deriving DecidableEq

/-- `<SetU8 as Set<u8>>::new`: copies the byte (`*val as uint8_t`). -/
def SetU8.new (v : Nat) : SetU8 := ⟨v⟩

/-- `<SetU8 as Set<u8>>::ffi_len`: `mem::size_of::<c_int>()`, although
the pointed-at field is one byte. -/
def SetU8.ffi_len (_ : SetU8) : Nat := cIntSize

/-- The bytes of the object `<SetU8 as Set<u8>>::ffi_ptr` points at:
`&self.val as *const uint8_t` refers to the single `uint8_t` field, so
the actual payload is exactly one byte. -/
def SetU8.buffer (s : SetU8) : List Nat := [s.val]

/-- Read scratch of the size strategy: a `socklen_t` length and a
`c_int` value. -/
structure GetUsize where
  len : Nat
  val : Int
deriving DecidableEq

/-- `<GetUsize as Get<usize>>::blank`: length preset to
`mem::size_of::<c_int>()`, value zeroed. -/
def GetUsize.blank : GetUsize := ⟨cIntSize, 0⟩

/-- `<GetUsize as Get<usize>>::unwrap`: assert the post-call length
equals `mem::size_of::<c_int>()`, then cast `self.val as usize`. -/
def GetUsize.unwrap (s : GetUsize) : Option Nat :=
  if s.len = cIntSize then some (cIntToUsize s.val) else none

/-- Write wrapper of the size strategy: an owned `c_int` field. -/
structure SetUsize where
  val : Int
deriving DecidableEq

/-- `<SetUsize as Set<usize>>::new`: narrows with `*val as c_int`. -/
def SetUsize.new (v : Nat) : SetUsize := ⟨usizeToCInt v⟩

/-- `<SetUsize as Set<usize>>::ffi_len`: `mem::size_of::<c_int>()`. -/
def SetUsize.ffi_len (_ : SetUsize) : Nat := cIntSize

/-- The `linger` struct (two C ints), a representative opaque value
type; its `CRepr` data is 8 bytes and the all-zero struct. -/
structure linger where
  l_onoff : Int
  l_linger : Int
deriving DecidableEq

instance : CRepr linger := ⟨8, ⟨0, 0⟩⟩

/-- Target operating systems named by the `cfg` gates of the file. -/
inductive TargetOs where
  | linux | android | freebsd | dragonfly | ios | macos | netbsd | openbsd | nacl
deriving DecidableEq

/-- Target architectures the `cfg` gates distinguish. -/
inductive TargetArch where
  | arm | otherArch
deriving DecidableEq

/-- The `cfg(any(target_os = "dragonfly", "freebsd", "ios", "macos",
"netbsd", "openbsd"))` predicate gating the IPv6 membership entries. -/
def bsdFamily (os : TargetOs) : Bool :=
  match os with
  | TargetOs.dragonfly | TargetOs.freebsd | TargetOs.ios
  | TargetOs.macos | TargetOs.netbsd | TargetOs.openbsd => true
  | _ => false

/-- The libc option-level and option-number constants the registry
names, kept symbolic (one constructor per named C constant). -/
inductive LibcConst where
  | SOL_SOCKET | IPPROTO_TCP | IPPROTO_IP | IPPROTO_IPV6 | SOL_IP
  | SO_REUSEADDR | SO_REUSEPORT | TCP_NODELAY | SO_LINGER
  | IP_ADD_MEMBERSHIP | IP_DROP_MEMBERSHIP
  | IPV6_ADD_MEMBERSHIP | IPV6_DROP_MEMBERSHIP
  | IPV6_JOIN_GROUP | IPV6_LEAVE_GROUP
  | IP_MULTICAST_TTL | IP_MULTICAST_LOOP
  | SO_RCVTIMEO | SO_SNDTIMEO | SO_BROADCAST | SO_OOBINLINE
  | SO_ERROR | SO_KEEPALIVE | SO_PEERCRED | TCP_KEEPALIVE | TCP_KEEPIDLE
  | SO_RCVBUF | SO_SNDBUF | SO_RCVBUFFORCE | SO_SNDBUFFORCE
  | SO_TYPE | SO_ACCEPTCONN | SO_ORIGINAL_DST | SO_TIMESTAMP
deriving DecidableEq

/-- The value types the registry binds to options. -/
inductive ValType where
  | bool | u8 | usize | i32 | u32
  | lingerTy | ip_mreq | ipv6_mreq | timeval | ucred | sockTypeTy | sockaddr_in
deriving DecidableEq

/-- Which accessor impls a `sockopt_impl!` expansion generates:
`GetOnly`, `SetOnly` or `Both`. -/
inductive Capability where
  | getOnly | setOnly | both
deriving DecidableEq

/-- One expanded registry entry: option-level, option-number, bound
value type and generated capability. -/
structure RegistryEntry where
  level : LibcConst
  flag : LibcConst
  ty : ValType
  cap : Capability
deriving DecidableEq

/-- The option identifiers the file declares. -/
inductive SockOptName where
  | ReuseAddr | ReusePort | TcpNoDelay | Linger
  | IpAddMembership | IpDropMembership
  | Ipv6AddMembership | Ipv6DropMembership
  | IpMulticastTtl | IpMulticastLoop
  | ReceiveTimeout | SendTimeout
  | Broadcast | OobInline | SocketError | KeepAlive
  | PeerCredentials | TcpKeepAlive | TcpKeepIdle
  | RcvBuf | SndBuf | RcvBufForce | SndBufForce
  | SockType | AcceptConn | OriginalDst | ReceiveTimestamp
deriving DecidableEq

/-- The declarative registry: the `sockopt_impl!` invocations of the
file, resolved for a target (os, arch).  `none` means the identifier is
not compiled for that target (its `cfg` gate excludes it). -/
def registry (os : TargetOs) (arch : TargetArch) :
    SockOptName → Option RegistryEntry
  | SockOptName.ReuseAddr =>
    some ⟨LibcConst.SOL_SOCKET, LibcConst.SO_REUSEADDR, ValType.bool, Capability.both⟩
  | SockOptName.ReusePort =>
    some ⟨LibcConst.SOL_SOCKET, LibcConst.SO_REUSEPORT, ValType.bool, Capability.both⟩
  | SockOptName.TcpNoDelay =>
    some ⟨LibcConst.IPPROTO_TCP, LibcConst.TCP_NODELAY, ValType.bool, Capability.both⟩
  | SockOptName.Linger =>
    some ⟨LibcConst.SOL_SOCKET, LibcConst.SO_LINGER, ValType.lingerTy, Capability.both⟩
  | SockOptName.IpAddMembership =>
    some ⟨LibcConst.IPPROTO_IP, LibcConst.IP_ADD_MEMBERSHIP, ValType.ip_mreq, Capability.setOnly⟩
  | SockOptName.IpDropMembership =>
    some ⟨LibcConst.IPPROTO_IP, LibcConst.IP_DROP_MEMBERSHIP, ValType.ip_mreq, Capability.setOnly⟩
  | SockOptName.Ipv6AddMembership =>
    if bsdFamily os
    then some ⟨LibcConst.IPPROTO_IPV6, LibcConst.IPV6_JOIN_GROUP, ValType.ipv6_mreq, Capability.setOnly⟩
    else some ⟨LibcConst.IPPROTO_IPV6, LibcConst.IPV6_ADD_MEMBERSHIP, ValType.ipv6_mreq, Capability.setOnly⟩
  | SockOptName.Ipv6DropMembership =>
    if bsdFamily os
    then some ⟨LibcConst.IPPROTO_IPV6, LibcConst.IPV6_LEAVE_GROUP, ValType.ipv6_mreq, Capability.setOnly⟩
    else some ⟨LibcConst.IPPROTO_IPV6, LibcConst.IPV6_DROP_MEMBERSHIP, ValType.ipv6_mreq, Capability.setOnly⟩
  | SockOptName.IpMulticastTtl =>
    some ⟨LibcConst.IPPROTO_IP, LibcConst.IP_MULTICAST_TTL, ValType.u8, Capability.both⟩
  | SockOptName.IpMulticastLoop =>
    some ⟨LibcConst.IPPROTO_IP, LibcConst.IP_MULTICAST_LOOP, ValType.bool, Capability.both⟩
  | SockOptName.ReceiveTimeout =>
    some ⟨LibcConst.SOL_SOCKET, LibcConst.SO_RCVTIMEO, ValType.timeval, Capability.both⟩
  | SockOptName.SendTimeout =>
    some ⟨LibcConst.SOL_SOCKET, LibcConst.SO_SNDTIMEO, ValType.timeval, Capability.both⟩
  | SockOptName.Broadcast =>
    some ⟨LibcConst.SOL_SOCKET, LibcConst.SO_BROADCAST, ValType.bool, Capability.both⟩
  | SockOptName.OobInline =>
    some ⟨LibcConst.SOL_SOCKET, LibcConst.SO_OOBINLINE, ValType.bool, Capability.both⟩
  | SockOptName.SocketError =>
    some ⟨LibcConst.SOL_SOCKET, LibcConst.SO_ERROR, ValType.i32, Capability.getOnly⟩
  | SockOptName.KeepAlive =>
    some ⟨LibcConst.SOL_SOCKET, LibcConst.SO_KEEPALIVE, ValType.bool, Capability.both⟩
  | SockOptName.PeerCredentials =>
    if os = TargetOs.linux ∧ arch ≠ TargetArch.arm
    then some ⟨LibcConst.SOL_SOCKET, LibcConst.SO_PEERCRED, ValType.ucred, Capability.getOnly⟩
    else none
  | SockOptName.TcpKeepAlive =>
    if os = TargetOs.macos ∨ os = TargetOs.ios
    then some ⟨LibcConst.IPPROTO_TCP, LibcConst.TCP_KEEPALIVE, ValType.u32, Capability.both⟩
    else none
  | SockOptName.TcpKeepIdle =>
    if os = TargetOs.freebsd ∨ os = TargetOs.dragonfly ∨ os = TargetOs.linux
       ∨ os = TargetOs.android ∨ os = TargetOs.nacl
    then some ⟨LibcConst.IPPROTO_TCP, LibcConst.TCP_KEEPIDLE, ValType.u32, Capability.both⟩
    else none
  | SockOptName.RcvBuf =>
    some ⟨LibcConst.SOL_SOCKET, LibcConst.SO_RCVBUF, ValType.usize, Capability.both⟩
  | SockOptName.SndBuf =>
    some ⟨LibcConst.SOL_SOCKET, LibcConst.SO_SNDBUF, ValType.usize, Capability.both⟩
  | SockOptName.RcvBufForce =>
    if os = TargetOs.linux ∨ os = TargetOs.android
    then some ⟨LibcConst.SOL_SOCKET, LibcConst.SO_RCVBUFFORCE, ValType.usize, Capability.setOnly⟩
    else none
  | SockOptName.SndBufForce =>
    if os = TargetOs.linux ∨ os = TargetOs.android
    then some ⟨LibcConst.SOL_SOCKET, LibcConst.SO_SNDBUFFORCE, ValType.usize, Capability.setOnly⟩
    else none
  | SockOptName.SockType =>
    some ⟨LibcConst.SOL_SOCKET, LibcConst.SO_TYPE, ValType.sockTypeTy, Capability.getOnly⟩
  | SockOptName.AcceptConn =>
    some ⟨LibcConst.SOL_SOCKET, LibcConst.SO_ACCEPTCONN, ValType.bool, Capability.getOnly⟩
  | SockOptName.OriginalDst =>
    if os = TargetOs.linux ∨ os = TargetOs.android
    then some ⟨LibcConst.SOL_IP, LibcConst.SO_ORIGINAL_DST, ValType.sockaddr_in, Capability.getOnly⟩
    else none
  | SockOptName.ReceiveTimestamp =>
    some ⟨LibcConst.SOL_SOCKET, LibcConst.SO_TIMESTAMP, ValType.bool, Capability.both⟩

/-- Whether a `sockopt_impl!` arm generates a `GetSockOpt` impl. -/
def capHasGet : Capability → Bool
  | Capability.getOnly => true
  | Capability.both => true
  | Capability.setOnly => false

/-- Whether a `sockopt_impl!` arm generates a `SetSockOpt` impl. -/
def capHasSet : Capability → Bool
  | Capability.setOnly => true
  | Capability.both => true
  | Capability.getOnly => false

/-- The identifier implements `GetSockOpt` on the given target. -/
def hasGetImpl (os : TargetOs) (arch : TargetArch) (n : SockOptName) : Bool :=
  match registry os arch n with
  | some e => capHasGet e.cap
  | none => false

/-- The identifier implements `SetSockOpt` on the given target. -/
def hasSetImpl (os : TargetOs) (arch : TargetArch) (n : SockOptName) : Bool :=
  match registry os arch n with
  | some e => capHasSet e.cap
  | none => false

instance lingerCRepr : CRepr linger := ⟨8, ⟨0, 0⟩⟩

/-- `usizeToCInt` always lands strictly below `2 ^ 31` (a C `int` cannot
represent a larger value). -/
theorem usizeToCInt_lt (v : Nat) : usizeToCInt v < 2 ^ 31 := by
  simp only [usizeToCInt]
  split <;> omega

/-- C1: for every read-encoding strategy (`GetBool`, `GetU8`, `GetUsize`,
`GetStruct<T>`), `unwrap` produces the typed value exactly when the
post-call length field equals the expected byte size of the scratch
payload, and a mismatch surfaces as the fatal assertion (the `fatal`
outcome of the accessor), never as a recoverable `err`. -/
theorem spec_C1 {T : Type} [CRepr T] (b : GetBool) (u : GetU8) (z : GetUsize)
    (t : GetStruct T) {σ α : Type} (uw : σ → Option α) (sys : σ → GetOutcome σ)
    (bl : σ) (hst : (sys bl).status = 0) (hmis : uw (sys bl).after = none) :
    ((GetBool.unwrap b).isSome = true ↔ b.len = cIntSize) ∧
    ((GetU8.unwrap u).isSome = true ↔ u.len = uint8_tSize) ∧
    ((GetUsize.unwrap z).isSome = true ↔ z.len = cIntSize) ∧
    ((GetStruct.unwrap t).isSome = true ↔ t.len = csize T) ∧
    getsockopt_impl uw sys bl = CallResult.fatal ∧
    (∀ e, getsockopt_impl uw sys bl ≠ CallResult.err e) := by
  have himpl : getsockopt_impl uw sys bl = CallResult.fatal := by
    simp [getsockopt_impl, Errno.result, hst, hmis]
  refine ⟨?_, ?_, ?_, ?_, himpl, ?_⟩
  · by_cases h : b.len = cIntSize <;> simp [GetBool.unwrap, h]
  · by_cases h : u.len = uint8_tSize <;> simp [GetU8.unwrap, h]
  · by_cases h : z.len = cIntSize <;> simp [GetUsize.unwrap, h]
  · by_cases h : t.len = csize T <;> simp [GetStruct.unwrap, h]
  · intro e
    simp [himpl]

theorem spec_C1_witness :
    GetBool.unwrap ⟨3, 9⟩ = none ∧
    getsockopt_impl GetBool.unwrap
      (fun _ => (⟨0, 7, ⟨3, 9⟩⟩ : GetOutcome GetBool)) GetBool.blank =
      CallResult.fatal :=
  ⟨rfl,
   (@spec_C1 linger lingerCRepr ⟨4, 1⟩ ⟨1, 2⟩ ⟨4, 3⟩ ⟨8, ⟨0, 0⟩⟩ GetBool Bool
      GetBool.unwrap (fun _ => (⟨0, 7, ⟨3, 9⟩⟩ : GetOutcome GetBool))
      GetBool.blank rfl rfl).2.2.2.2.1⟩

/-- C2: the write encoding `SetU8` copies the value into its one-byte
field but reports `ffi_len = size_of::<c_int>()`, while the read
encoding `GetU8` initializes its length field to
`size_of::<uint8_t>() = 1`; this read/write asymmetry holds
unconditionally. -/
theorem spec_C2 (s : SetU8) (x : Nat) :
    SetU8.ffi_len s = cIntSize ∧
    (SetU8.new x).val = x ∧
    GetU8.blank.len = uint8_tSize ∧
    uint8_tSize = 1 ∧
    cIntSize = 4 ∧
    SetU8.ffi_len s ≠ GetU8.blank.len :=
  ⟨rfl, rfl, rfl, rfl, rfl, (by decide : cIntSize ≠ uint8_tSize)⟩

/-- C3: the generic get entry point errs exactly when the syscall status
is non-zero, carrying the mapped platform error code, and never runs the
decoder on the error path; on zero status it returns the decoded value.
The set entry point errs exactly on non-zero status and otherwise
succeeds with no value.  Each entry point consults the single syscall
outcome at its scratch, so two syscall behaviors agreeing there give the
same result (one syscall per call). -/
theorem spec_C3 {σ α : Type} (uw : σ → Option α) (sys : σ → GetOutcome σ) (bl : σ)
    {τ β : Type} (nw : β → τ) (fl : τ → Nat) (ssys : τ → Nat → SetOutcome) (v : β) :
    ((∃ e, getsockopt_impl uw sys bl = CallResult.err e) ↔ (sys bl).status ≠ 0) ∧
    ((sys bl).status ≠ 0 → getsockopt_impl uw sys bl = CallResult.err (sys bl).errno) ∧
    (∀ uw2 : σ → Option α, (sys bl).status ≠ 0 →
      getsockopt_impl uw sys bl = getsockopt_impl uw2 sys bl) ∧
    (∀ a, (sys bl).status = 0 → uw (sys bl).after = some a →
      getsockopt_impl uw sys bl = CallResult.ok a) ∧
    ((∃ e, setsockopt_impl nw fl ssys v = CallResult.err e) ↔
      (ssys (nw v) (fl (nw v))).status ≠ 0) ∧
    ((ssys (nw v) (fl (nw v))).status ≠ 0 →
      setsockopt_impl nw fl ssys v = CallResult.err (ssys (nw v) (fl (nw v))).errno) ∧
    ((ssys (nw v) (fl (nw v))).status = 0 →
      setsockopt_impl nw fl ssys v = CallResult.ok ()) ∧
    (∀ sys2 : σ → GetOutcome σ, sys2 bl = sys bl →
      getsockopt_impl uw sys2 bl = getsockopt_impl uw sys bl) := by
  refine ⟨?_, ?_, ?_, ?_, ?_, ?_, ?_, ?_⟩
  · by_cases h : (sys bl).status = 0
    · simp only [getsockopt_impl, Errno.result, h, if_pos rfl]
      cases huw : uw (sys bl).after <;> simp [huw, h]
    · simp [getsockopt_impl, Errno.result, h]
  · intro h
    simp [getsockopt_impl, Errno.result, h]
  · intro uw2 h
    simp [getsockopt_impl, Errno.result, h]
  · intro a h huw
    simp [getsockopt_impl, Errno.result, h, huw]
  · by_cases h : (ssys (nw v) (fl (nw v))).status = 0 <;>
      simp [setsockopt_impl, Errno.result, h]
  · intro h
    simp [setsockopt_impl, Errno.result, h]
  · intro h
    simp [setsockopt_impl, Errno.result, h]
  · intro sys2 h
    simp [getsockopt_impl, h]

/-- C4: the boolean pair round-trips — `SetBool` stores 1 for `true` and
0 for `false` in its owned `c_int`-sized field, `GetBool.unwrap` maps a
nonzero `c_int` to `true` and zero to `false`, and decoding the stored
native-int encoding of any boolean yields that boolean again. -/
theorem spec_C4 (b : Bool) :
    (SetBool.new true).val = 1 ∧
    (SetBool.new false).val = 0 ∧
    SetBool.ffi_len (SetBool.new b) = cIntSize ∧
    (∀ s : GetBool, s.len = cIntSize → s.val ≠ 0 → GetBool.unwrap s = some true) ∧
    (∀ s : GetBool, s.len = cIntSize → s.val = 0 → GetBool.unwrap s = some false) ∧
    GetBool.unwrap ⟨cIntSize, (SetBool.new b).val⟩ = some b := by
  refine ⟨rfl, rfl, rfl, ?_, ?_, ?_⟩
  · intro s h1 h2
    simp [GetBool.unwrap, h1, h2]
  · intro s h1 h2
    simp [GetBool.unwrap, h1, h2]
  · cases b <;> simp [GetBool.unwrap, SetBool.new]

/-- C5: the opaque-struct decode is an identity move — once the length
matches `size_of::<T>()`, `GetStruct<T>::unwrap` returns the payload
unchanged — and `SetStruct<T>` borrows the value itself with length
exactly `size_of::<T>()`, so a struct written and read back through the
pair comes back identical. -/
theorem spec_C5 {T : Type} [CRepr T] (v : T) (s : GetStruct T)
    (hl : s.len = csize T) :
    GetStruct.unwrap s = some s.val ∧
    (SetStruct.new v).ptr = v ∧
    SetStruct.ffi_len (SetStruct.new v) = csize T ∧
    GetStruct.unwrap (⟨csize T, v⟩ : GetStruct T) = some v := by
  refine ⟨?_, rfl, rfl, ?_⟩
  · simp [GetStruct.unwrap, hl]
  · simp [GetStruct.unwrap]

theorem spec_C5_witness :
    (⟨8, ⟨1, 5⟩⟩ : GetStruct linger).len = csize linger ∧
    GetStruct.unwrap (⟨8, ⟨1, 5⟩⟩ : GetStruct linger) = some ⟨1, 5⟩ ∧
    GetStruct.unwrap (⟨csize linger, ⟨1, 5⟩⟩ : GetStruct linger) = some ⟨1, 5⟩ :=
  ⟨rfl,
   (@spec_C5 linger lingerCRepr ⟨1, 5⟩ ⟨8, ⟨1, 5⟩⟩ rfl).1,
   (@spec_C5 linger lingerCRepr ⟨1, 5⟩ ⟨8, ⟨1, 5⟩⟩ rfl).2.2.2⟩

/-- C6: every read strategy's `blank` presets the length field to the
exact byte size of its scratch payload (`c_int` for bool and usize,
`uint8_t` for u8, `T` for structs) and zero-initializes the payload. -/
theorem spec_C6 (T : Type) [CRepr T] :
    GetBool.blank.len = cIntSize ∧ GetBool.blank.val = 0 ∧
    GetU8.blank.len = uint8_tSize ∧ GetU8.blank.val = 0 ∧
    GetUsize.blank.len = cIntSize ∧ GetUsize.blank.val = 0 ∧
    (GetStruct.blank T).len = csize T ∧ (GetStruct.blank T).val = czeroed T :=
  ⟨rfl, rfl, rfl, rfl, rfl, rfl, rfl, rfl⟩

/-- C7: on every target, the read-only identifiers (`SocketError`,
`SockType`, `AcceptConn`, `PeerCredentials`, `OriginalDst`) have no
`SetSockOpt` impl and the write-only identifiers (`IpAddMembership`,
`IpDropMembership`, `Ipv6AddMembership`, `Ipv6DropMembership`,
`RcvBufForce`, `SndBufForce`) have no `GetSockOpt` impl: the forbidden
direction is simply not generated, so misuse cannot reach run time. -/
theorem spec_C7 : ∀ (os : TargetOs) (arch : TargetArch),
    hasSetImpl os arch SockOptName.SocketError = false ∧
    hasSetImpl os arch SockOptName.SockType = false ∧
    hasSetImpl os arch SockOptName.AcceptConn = false ∧
    hasSetImpl os arch SockOptName.PeerCredentials = false ∧
    hasSetImpl os arch SockOptName.OriginalDst = false ∧
    hasGetImpl os arch SockOptName.IpAddMembership = false ∧
    hasGetImpl os arch SockOptName.IpDropMembership = false ∧
    hasGetImpl os arch SockOptName.Ipv6AddMembership = false ∧
    hasGetImpl os arch SockOptName.Ipv6DropMembership = false ∧
    hasGetImpl os arch SockOptName.RcvBufForce = false ∧
    hasGetImpl os arch SockOptName.SndBufForce = false := by
  intro os arch
  cases os <;> cases arch <;> decide

/-- C8: the IPv6 membership identifiers resolve to the
`IPV6_JOIN_GROUP` / `IPV6_LEAVE_GROUP` constants on the BSD-like family
and to `IPV6_ADD_MEMBERSHIP` / `IPV6_DROP_MEMBERSHIP` elsewhere — two
distinct constants per option — while both resolutions share level
`IPPROTO_IPV6`, value type `ipv6_mreq` and write-only capability, and
every target has exactly one resolution (the registry is a total
function there). -/
theorem spec_C8 (os1 os2 : TargetOs) (arch1 arch2 : TargetArch)
    (h1 : bsdFamily os1 = true) (h2 : bsdFamily os2 = false) :
    registry os1 arch1 SockOptName.Ipv6AddMembership =
      some ⟨LibcConst.IPPROTO_IPV6, LibcConst.IPV6_JOIN_GROUP,
            ValType.ipv6_mreq, Capability.setOnly⟩ ∧
    registry os2 arch2 SockOptName.Ipv6AddMembership =
      some ⟨LibcConst.IPPROTO_IPV6, LibcConst.IPV6_ADD_MEMBERSHIP,
            ValType.ipv6_mreq, Capability.setOnly⟩ ∧
    registry os1 arch1 SockOptName.Ipv6DropMembership =
      some ⟨LibcConst.IPPROTO_IPV6, LibcConst.IPV6_LEAVE_GROUP,
            ValType.ipv6_mreq, Capability.setOnly⟩ ∧
    registry os2 arch2 SockOptName.Ipv6DropMembership =
      some ⟨LibcConst.IPPROTO_IPV6, LibcConst.IPV6_DROP_MEMBERSHIP,
            ValType.ipv6_mreq, Capability.setOnly⟩ ∧
    LibcConst.IPV6_JOIN_GROUP ≠ LibcConst.IPV6_ADD_MEMBERSHIP ∧
    LibcConst.IPV6_LEAVE_GROUP ≠ LibcConst.IPV6_DROP_MEMBERSHIP ∧
    (∀ (os : TargetOs) (arch : TargetArch),
      (registry os arch SockOptName.Ipv6AddMembership).isSome = true ∧
      (registry os arch SockOptName.Ipv6DropMembership).isSome = true) := by
  refine ⟨?_, ?_, ?_, ?_, by decide, by decide, ?_⟩
  · simp [registry, h1]
  · simp [registry, h2]
  · simp [registry, h1]
  · simp [registry, h2]
  · intro os arch
    cases os <;> cases arch <;> decide

theorem spec_C8_witness :
    bsdFamily TargetOs.freebsd = true ∧
    bsdFamily TargetOs.linux = false ∧
    registry TargetOs.freebsd TargetArch.otherArch SockOptName.Ipv6AddMembership =
      some ⟨LibcConst.IPPROTO_IPV6, LibcConst.IPV6_JOIN_GROUP,
            ValType.ipv6_mreq, Capability.setOnly⟩ ∧
    registry TargetOs.linux TargetArch.otherArch SockOptName.Ipv6AddMembership =
      some ⟨LibcConst.IPPROTO_IPV6, LibcConst.IPV6_ADD_MEMBERSHIP,
            ValType.ipv6_mreq, Capability.setOnly⟩ :=
  ⟨rfl, rfl,
   (spec_C8 TargetOs.freebsd TargetOs.linux TargetArch.otherArch
      TargetArch.otherArch rfl rfl).1,
   (spec_C8 TargetOs.freebsd TargetOs.linux TargetArch.otherArch
      TargetArch.otherArch rfl rfl).2.1⟩

/-- C9: the usize encoding narrows through a C `int`: `SetUsize::new`
stores `v as c_int`, `GetUsize::unwrap` casts back by sign extension;
hence every `v` up to the `c_int` maximum round-trips exactly, every
larger `v` is silently truncated (the stored payload differs from `v`,
with no error raised), and a negative stored `c_int` decodes to a usize
above the `isize` maximum. -/
theorem spec_C9 (v w : Nat) (i : Int)
    (hv : v ≤ 2 ^ 31 - 1) (hw : 2 ^ 31 - 1 < w)
    (hineg : i < 0) (hilow : -(2 ^ 31) ≤ i) :
    (SetUsize.new v).val = usizeToCInt v ∧
    cIntToUsize (SetUsize.new v).val = v ∧
    GetUsize.unwrap ⟨cIntSize, (SetUsize.new v).val⟩ = some v ∧
    (SetUsize.new w).val ≠ (w : Int) ∧
    isizeMax < cIntToUsize i ∧
    GetUsize.unwrap ⟨cIntSize, i⟩ = some (cIntToUsize i) := by
  have hv32 : v % 2 ^ 32 = v := Nat.mod_eq_of_lt (by omega)
  have hv31 : v < 2 ^ 31 := by omega
  have hval : (SetUsize.new v).val = (v : Int) := by
    simp only [SetUsize.new, usizeToCInt]
    split <;> omega
  have hround : cIntToUsize (SetUsize.new v).val = v := by
    rw [hval]
    simp only [cIntToUsize]
    omega
  refine ⟨rfl, hround, ?_, ?_, ?_, ?_⟩
  · simp [GetUsize.unwrap, hround]
  · have hlt := usizeToCInt_lt w
    simp only [SetUsize.new]
    omega
  · simp only [cIntToUsize, isizeMax]
    omega
  · simp [GetUsize.unwrap]

theorem spec_C9_witness :
    cIntToUsize (SetUsize.new 5).val = 5 ∧
    (SetUsize.new (2 ^ 31)).val ≠ ((2 ^ 31 : Nat) : Int) ∧
    isizeMax < cIntToUsize (-1) :=
  ⟨(spec_C9 5 (2 ^ 31) (-1) (by norm_num) (by norm_num)
      (by norm_num) (by norm_num)).2.1,
   (spec_C9 5 (2 ^ 31) (-1) (by norm_num) (by norm_num)
      (by norm_num) (by norm_num)).2.2.2.1,
   (spec_C9 5 (2 ^ 31) (-1) (by norm_num) (by norm_num)
      (by norm_num) (by norm_num)).2.2.2.2.1⟩

/-- C10: `SetU8::ffi_len` reports `size_of::<c_int>()` (4), strictly
more than the one `uint8_t` byte its `ffi_ptr` actually points at, so a
consumer honoring the reported length would read past the field. -/
theorem spec_C10 (s : SetU8) :
    SetU8.ffi_len s = cIntSize ∧
    (SetU8.buffer s).length = uint8_tSize ∧
    (SetU8.buffer s).length < SetU8.ffi_len s :=
  ⟨rfl, rfl, (by decide : uint8_tSize < cIntSize)⟩
